import Mathlib

set_option maxHeartbeats 1000000

/-
Verification of the libvirt image-backend module (nova/virt/libvirt/imagebackend.py).

The embedding below translates the module's data model and operations into Lean:
Python byte strings (paths, image names, formats) become `List Char`; the optional
integer sizes flowing through `verify_base_size` become `PyVal` (None or an integer,
with the Python 2 cross-type ordering `None < int`); the filesystem is a list of
existing paths; backend `create_image` flows are explicit state passing that also
records a trace of the external operations they issue (fetch, copy, extend,
lock acquire/release, volume create/remove), with a failure environment `env`
deciding which external operation raises.  A failing operation is modelled as
leaving its (partial) target path behind, which is exactly the situation the
module's `remove_path_on_error` / `remove_volume_on_error` wrappers exist to
clean up.
-/

namespace ImageBackend

/-- Characters of a Python byte string: a path, image name or format keyword. -/
abbrev Path := List Char

/-- Python value that is either None or an integer, as used for image sizes. -/
inductive PyVal where
  | none
  | int (n : Int)
deriving DecidableEq, Repr

/-- Python truthiness of a size value: None and 0 are falsy, other ints truthy. -/
def pyTruthy : PyVal → Bool
  | .none => false
  | .int n => n != 0

/-- Python 2 ordering used by `size < base_size`: None sorts below every integer,
    so `int < None` is False and `None < int` is True. -/
def pyLt : PyVal → PyVal → Bool
  | .none, .none => false
  | .none, .int _ => true
  | .int _, .none => false
  | .int a, .int b => a < b

/-- Python 2 ordering used by `size > base_size` in Lvm.create_image. -/
def pyGt : PyVal → PyVal → Bool
  | .none, _ => false
  | .int _, .none => true
  | .int a, .int b => b < a

/-- Embedding of `Image.verify_base_size(base, size, base_size=0)`
    (imagebackend.py lines 206-233).  `gds` is the dynamically dispatched
    `self.get_disk_size` method.  Returns `true` exactly when the method raises
    `exception.InstanceTypeDiskTooSmall` (the spec's SizeViolation): it returns
    early on `size is None`, computes `base_size = self.get_disk_size(base)` when
    `size` is truthy and `base_size` falsy, and raises when `size < base_size`. -/
def verify_base_size (gds : Path → PyVal) (base : Path) (size : PyVal)
    (base_size : PyVal) : Bool :=
  if size = PyVal.none then false
  else
    let bs := if pyTruthy size && !(pyTruthy base_size) then gds base else base_size
    pyLt size bs

/-- Embedding of the base `Image.get_disk_size(name)` (lines 235-236): the body
    evaluates `disk.get_disk_size(name)` (the external probe, modelled by `dgds`)
    but has no `return` statement, so the method returns None for every name. -/
def Image_get_disk_size (dgds : Path → Int) (name : Path) : PyVal :=
  let _ := dgds name
  PyVal.none

/-- C1: for every base path and requested size, `verify_base_size(base, size)` —
    with `base_size` left at its default of 0 — raises SizeViolation exactly when
    `size` is a non-empty size that the Python 2 comparison puts strictly below the
    base size computed by `self.get_disk_size(base)`; in particular no error is
    raised when `size` is None or 0, or when `size >= base_size`. -/
theorem C1_verify_base_size_iff (gds : Path → PyVal) (base : Path) (size : PyVal) :
    verify_base_size gds base size (PyVal.int 0) = true ↔
      (pyTruthy size = true ∧ pyLt size (gds base) = true) := by
  cases size with
  | none => simp [verify_base_size, pyTruthy]
  | int n =>
    by_cases h : n = 0
    · subst h; simp [verify_base_size, pyTruthy, pyLt]
    · simp [verify_base_size, pyTruthy, pyLt, h]

/-- C2: the base `Image.get_disk_size` returns None for every name (it computes the
    disk size but does not return it), and consequently `verify_base_size` invoked
    without an explicit `base_size` — as Raw and Qcow2, which do not override
    `get_disk_size`, invoke it — never raises, for any base and any size. -/
theorem C2_base_get_disk_size_returns_none (dgds : Path → Int) (name base : Path)
    (size : PyVal) :
    Image_get_disk_size dgds name = PyVal.none ∧
    verify_base_size (Image_get_disk_size dgds) base size (PyVal.int 0) = false := by
  refine ⟨rfl, ?_⟩
  cases size with
  | none => simp [verify_base_size]
  | int n =>
    by_cases h : n = 0 <;>
      simp [verify_base_size, pyTruthy, pyLt, Image_get_disk_size, h]

/-! Persisted disk-format record (`resolve_driver_format`, lines 247-301).
The per-directory `disk.info` file holds one JSON line mapping absolute path to
format keyword; it is modelled, already parsed, as an association list, with
`Option` distinguishing a missing file from an existing one. -/

/-- Parsed content of a disk.info record: path-to-format mapping. -/
abbrev DiskInfo := List (Path × Path)

/-- Python dict lookup `dct[path]` / `path in dct` on the parsed record. -/
def lookupPath : DiskInfo → Path → Option Path
  | [], _ => Option.none
  | (k, v) :: rest, p => if k = p then some v else lookupPath rest p

/-- Errors surfaced by the format-record logic. -/
inductive ImgErr where
  | invalidDiskInfo (msg : Path)
  | diskInfoReadWriteFail
deriving DecidableEq, Repr

/-- Message of the duplicate-entry rejection (line 276). -/
def overwriteMsg : Path := "Attempted overwrite of an existing value.".toList

/-- Embedding of the inner `write_to_disk_info_file` (lines 269-284): open-or-create
    the record (so `content = none` reads as the empty line, hence the empty dict),
    fail with `InvalidDiskInfo` (the spec's MetadataCorruption) if the current path is
    already recorded, otherwise add the mapping and rewrite the file.  On the error
    path nothing has been written, so the caller's record content is unchanged. -/
def write_to_disk_info_file (content : Option DiskInfo) (path fmt : Path) :
    Except ImgErr DiskInfo :=
  let dct := content.getD []
  if (lookupPath dct path).isSome then
    Except.error (ImgErr.invalidDiskInfo overwriteMsg)
  else
    Except.ok (dct ++ [(path, fmt)])

/-- Embedding of `Image.resolve_driver_format` (lines 286-301).  `infoPathSet`
    models `self.disk_info_path is not None`; `content` is the record file
    (`none` when the file does not exist); `probe` is the backend format probe
    `self._get_driver_format()`.  Returns the resolved format together with the
    record content after the call. -/
def resolve_driver_format (infoPathSet : Bool) (content : Option DiskInfo)
    (path : Path) (probe : Path) : Except ImgErr (Path × Option DiskInfo) :=
  if infoPathSet && content.isSome then
    match lookupPath (content.getD []) path with
    | some fmt => Except.ok (fmt, content)
    | Option.none =>
      match write_to_disk_info_file content path probe with
      | Except.ok dct => Except.ok (probe, some dct)
      | Except.error e => Except.error e
  else if infoPathSet then
    match write_to_disk_info_file content path probe with
    | Except.ok dct => Except.ok (probe, some dct)
    | Except.error e => Except.error e
  else
    Except.ok (probe, content)

theorem lookupPath_append_self (dct : DiskInfo) (path fmt : Path)
    (h : lookupPath dct path = Option.none) :
    lookupPath (dct ++ [(path, fmt)]) path = some fmt := by
  induction dct with
  | nil => simp [lookupPath]
  | cons kv rest ih =>
    obtain ⟨k, v⟩ := kv
    by_cases hk : k = path
    · simp [lookupPath, hk] at h
    · simp only [lookupPath, if_neg hk] at h
      simpa only [List.cons_append, lookupPath, if_neg hk] using ih h

/-- C4: resolve_driver_format round-trips.  Starting from a record that does not
    mention `path`, a first resolution probes the backend (result `p1`) and persists
    the mapping; a second resolution for the same path returns that identical
    recorded value for every probe result `p2` (so without re-probing) and leaves the
    record unchanged; and a direct attempt to persist a second mapping for the
    already-recorded path fails with InvalidDiskInfo. -/
theorem C4_resolve_driver_format_roundtrip (content : Option DiskInfo)
    (path p1 p2 : Path) (h : lookupPath (content.getD []) path = Option.none) :
    resolve_driver_format true content path p1 =
      Except.ok (p1, some (content.getD [] ++ [(path, p1)])) ∧
    resolve_driver_format true (some (content.getD [] ++ [(path, p1)])) path p2 =
      Except.ok (p1, some (content.getD [] ++ [(path, p1)])) ∧
    write_to_disk_info_file (some (content.getD [] ++ [(path, p1)])) path p2 =
      Except.error (ImgErr.invalidDiskInfo overwriteMsg) := by
  have hlook := lookupPath_append_self (content.getD []) path p1 h
  refine ⟨?_, ?_, ?_⟩
  · cases content with
    | none =>
      simp only [Option.getD_none] at h ⊢
      simp [resolve_driver_format, write_to_disk_info_file, h]
    | some dct =>
      simp only [Option.getD_some] at h ⊢
      simp [resolve_driver_format, write_to_disk_info_file, h]
  · simp [resolve_driver_format, hlook]
  · simp [write_to_disk_info_file, hlook]

/-- Witness for C4 at a concrete record: an empty (missing) file, path "p",
    first probe "qcow2", second probe "raw". -/
theorem C4_resolve_driver_format_roundtrip_witness :
    resolve_driver_format true Option.none "p".toList "qcow2".toList =
      Except.ok ("qcow2".toList, some [("p".toList, "qcow2".toList)]) ∧
    resolve_driver_format true (some [("p".toList, "qcow2".toList)]) "p".toList
        "raw".toList =
      Except.ok ("qcow2".toList, some [("p".toList, "qcow2".toList)]) ∧
    write_to_disk_info_file (some [("p".toList, "qcow2".toList)]) "p".toList
        "raw".toList =
      Except.error (ImgErr.invalidDiskInfo overwriteMsg) := by
  have h := C4_resolve_driver_format_roundtrip Option.none "p".toList
    "qcow2".toList "raw".toList (by decide)
  simpa using h

/-! Execution model for the backend creation flows.  An execution state carries
the set of existing paths and a trace of the external operations issued so far;
`env` decides which fallible external operation succeeds.  A failing operation
leaves its (partial) target path behind — the situation the module's
`remove_path_on_error` / `remove_volume_on_error` wrappers exist to clean up. -/

/-- External operations issued by the creation flows. -/
inductive Ev where
  | fetch (target : Path)
  | lockAcq (name : Path)
  | lockRel (name : Path)
  | copyImage (src dst : Path)
  | extendImg (p : Path) (sz : Int)
  | createCow (b t : Path)
  | convertImage (src dst : Path)
  | createLvm (p : Path) (sz : PyVal)
  | resize2fs (p : Path)
  | removePath (p : Path)
  | removeVolume (p : Path)
deriving DecidableEq, Repr

/-- Path created (possibly partially) by an operation, if any. -/
def evTarget : Ev → Option Path
  | .fetch t => some t
  | .copyImage _ d => some d
  | .createCow _ t => some t
  | .createLvm p _ => some p
  | _ => Option.none

/-- Execution state: existing paths plus the trace of operations issued. -/
structure ExecSt where
  fs : List Path
  tr : List Ev
deriving DecidableEq, Repr

/-- Record a path as existing. -/
def fsInsert (fs : List Path) (p : Path) : List Path :=
  if fs.contains p then fs else p :: fs

/-- Run one fallible external operation: its target becomes visible whether or not
    the operation succeeds (a failure leaves a partial artifact). -/
def runEv (env : Ev → Bool) (st : ExecSt) (e : Ev) : Bool × ExecSt :=
  let fs' := match evTarget e with
    | some t => fsInsert st.fs t
    | Option.none => st.fs
  (env e, { fs := fs', tr := st.tr ++ [e] })

/-- Delete a path (fileutils.delete_if_exists / lvremove). -/
def removeFrom (fs : List Path) (p : Path) : List Path :=
  fs.filter (fun q => !(q == p))

/-- Rollback of `remove_path_on_error(p)`: delete p, record the deletion. -/
def removeP (st : ExecSt) (p : Path) : ExecSt :=
  { fs := removeFrom st.fs p, tr := st.tr ++ [Ev.removePath p] }

/-- Rollback of `Lvm.remove_volume_on_error(p)`: destroy the volume at p. -/
def removeV (st : ExecSt) (p : Path) : ExecSt :=
  { fs := removeFrom st.fs p, tr := st.tr ++ [Ev.removeVolume p] }

/-- A bound fetch wrapper, as passed by `cache` to `create_image`. -/
abbrev Prepare := ExecSt → Path → Bool × ExecSt

/-- Embedding of the wrapper `call_if_not_exists` inside Image.cache (lines
    169-175): under the external lock named by `filename`, invoke the real fetch
    callback when the target does not exist, or — `elif` the configured images type
    is lvm and the kwargs carry an 'ephemeral_size' marker — even when it does.
    The lock is released on both the normal and the exceptional exit. -/
def call_if_not_exists_run (env : Ev → Bool) (confLvm eph : Bool) (filename : Path)
    (st : ExecSt) (target : Path) : Bool × ExecSt :=
  let st1 : ExecSt := { st with tr := st.tr ++ [Ev.lockAcq filename] }
  if !(st1.fs.contains target) || (confLvm && eph) then
    let r := runEv env st1 (Ev.fetch target)
    (r.1, { r.2 with tr := r.2.tr ++ [Ev.lockRel filename] })
  else (true, { st1 with tr := st1.tr ++ [Ev.lockRel filename] })

/-- Embedding of Image.cache (lines 157-188), for the file-backed backends whose
    `check_image_exists` is a path-existence test: compute base = base_dir/filename,
    and call the backend's `create_image` with the locked fetch wrapper unless the
    target path and the base both already exist.  The trailing fallocate
    preallocation and `ensure_tree` on the base directory are omitted: neither
    creates or fetches an image artifact. -/
def cache (env : Ev → Bool) (confLvm eph : Bool)
    (createImage : Prepare → Path → ExecSt → Bool × ExecSt)
    (path baseDir filename : Path) (st0 : ExecSt) : Bool × ExecSt :=
  let base := baseDir ++ '/' :: filename
  if !(st0.fs.contains path) || !(st0.fs.contains base) then
    createImage (call_if_not_exists_run env confLvm eph filename) base st0
  else (true, st0)

/-- Python int value of a size known to be an integer. -/
def pyIntVal : PyVal → Int
  | .none => 0
  | .int n => n

/-- The protected copy step of Raw.create_image (lines 343-360):
    `copy_raw_image(base, target, size)` — synchronized on `base`, copy then extend
    when a size was requested — wrapped in `remove_path_on_error(self.path)`.
    The lock is released by the decorator even when an operation inside raises,
    after which the rollback deletes the partial target and re-raises. -/
def raw_copy_protected (env : Ev → Bool) (base path : Path) (size : PyVal)
    (st : ExecSt) : Bool × ExecSt :=
  let st1 : ExecSt := { st with tr := st.tr ++ [Ev.lockAcq base] }
  let r2 := runEv env st1 (Ev.copyImage base path)
  if !r2.1 then
    (false, removeP { r2.2 with tr := r2.2.tr ++ [Ev.lockRel base] } path)
  else if pyTruthy size then
    let r3 := runEv env r2.2 (Ev.extendImg path (pyIntVal size))
    if !r3.1 then
      (false, removeP { r3.2 with tr := r3.2.tr ++ [Ev.lockRel base] } path)
    else (true, { r3.2 with tr := r3.2.tr ++ [Ev.lockRel base] })
  else (true, { r2.2 with tr := r2.2.tr ++ [Ev.lockRel base] })

/-- Embedding of Raw.create_image (lines 342-361).  `generating` models
    `'image_id' not in kwargs`: in that case the fetch wrapper is invoked directly
    on the final path, with no rollback protection.  Otherwise fetch into the base,
    verify the base size (never raising, since Raw inherits the base
    `get_disk_size`), and copy base to target under rollback protection when the
    target does not yet exist.  `correct_format()` only re-probes the driver format
    and contributes no filesystem events. -/
def raw_create_image (env : Ev → Bool) (generating : Bool) (prepare : Prepare)
    (path base : Path) (size : PyVal) (st0 : ExecSt) : Bool × ExecSt :=
  if generating then prepare st0 path
  else
    let r1 := prepare st0 base
    if !r1.1 then (false, r1.2)
    else if verify_base_size (fun _ => PyVal.none) base size (PyVal.int 0) then
      (false, r1.2)
    else if !(r1.2.fs.contains path) then raw_copy_protected env base path size r1.2
    else (true, r1.2)

/-- Embedding of Python str.split(sep): splits at every separator occurrence,
    keeping empty pieces; the empty string yields ['']. -/
def pySplit (sep : Char) : List Char → List (List Char)
  | [] => [[]]
  | c :: rest =>
    match pySplit sep rest with
    | [] => [[]]
    | r :: rs => if c = sep then [] :: r :: rs else (c :: r) :: rs

/-- Embedding of os.path.basename: the part after the last '/'. -/
def pyBasename (l : Path) : Path := (pySplit '/' l).getLastD []

/-- The part after the last occurrence of sep, when sep occurs: the tail component
    of Python str.rpartition(sep). -/
def afterLast (sep : Char) : List Char → Option (List Char)
  | [] => Option.none
  | c :: rest =>
    match afterLast sep rest with
    | some t => some t
    | Option.none => if c = sep then some rest else Option.none

/-- Embedding of Python str.isdigit: nonempty and all decimal digits. -/
def pyIsDigits (l : List Char) : Bool := !l.isEmpty && l.all Char.isDigit

/-- Embedding of Python int() on a digit string. -/
def parseDigits (l : List Char) : Nat :=
  l.foldl (fun a c => 10 * a + (c.toNat - '0'.toNat)) 0

/-- Rendering of `'_%d' % n`'s numeric part. -/
def natToChars (n : Nat) : Path := (toString n).toList

/-- The legacy-backing detection of Qcow2.create_image (lines 401-410), applied to
    the basename of the target's current backing file: rpartition on '_', require
    an all-digit tail distinct from the whole name (so the name does contain '_'),
    and produce the parsed tail times 1024³ together with
    `legacy_base = base + '_%d' % parsed` (the rename uses the value parsed before
    the multiplication, as in the source). -/
def qcow2_legacy_info (base backing_file : Path) : Option (Nat × Path) :=
  let tail := (afterLast '_' backing_file).getD backing_file
  if backing_file ≠ tail ∧ pyIsDigits tail = true then
    some (parseDigits tail * (1024 * 1024 * 1024),
          base ++ '_' :: natToChars (parseDigits tail))
  else Option.none

/-- The legacy-base materialization of Qcow2.create_image (lines 414-417):
    under `remove_path_on_error(legacy_base)`, copy the base and extend it to the
    legacy size.  No lock is taken around this block. -/
def qcow2_legacy_protected (env : Ev → Bool) (base legacy_base : Path)
    (lsize : Int) (st : ExecSt) : Bool × ExecSt :=
  let r1 := runEv env st (Ev.copyImage base legacy_base)
  if !r1.1 then (false, removeP r1.2 legacy_base)
  else
    let r2 := runEv env r1.2 (Ev.extendImg legacy_base lsize)
    if !r2.1 then (false, removeP r2.2 legacy_base)
    else (true, r2.2)

/-- The protected overlay-creation step of Qcow2.create_image (lines 380-387 and
    419-421): `copy_qcow2_image(base, target, size)` — synchronized on `base`,
    create_cow_image then extend when a size was requested — wrapped in
    `remove_path_on_error(self.path)`. -/
def qcow2_overlay_protected (env : Ev → Bool) (base path : Path) (size : PyVal)
    (st : ExecSt) : Bool × ExecSt :=
  let st1 : ExecSt := { st with tr := st.tr ++ [Ev.lockAcq base] }
  let r2 := runEv env st1 (Ev.createCow base path)
  if !r2.1 then
    (false, removeP { r2.2 with tr := r2.2.tr ++ [Ev.lockRel base] } path)
  else if pyTruthy size then
    let r3 := runEv env r2.2 (Ev.extendImg path (pyIntVal size))
    if !r3.1 then
      (false, removeP { r3.2 with tr := r3.2.tr ++ [Ev.lockRel base] } path)
    else (true, { r3.2 with tr := r3.2.tr ++ [Ev.lockRel base] })
  else (true, { r2.2 with tr := r2.2.tr ++ [Ev.lockRel base] })

/-- Embedding of Qcow2.create_image (lines 379-421).  `backing_of` models
    `libvirt_utils.get_disk_backing_file` on the existing target.  Fetch the base
    when absent, otherwise verify its size (never raising, by C2); detect a legacy
    backing name on an existing target; materialize the legacy base if its parsed
    size is nonzero and it does not yet exist; finally create the overlay when the
    target does not yet exist. -/
def qcow2_create_image (env : Ev → Bool) (backing_of : Path → Option Path)
    (prepare : Prepare) (path base : Path) (size : PyVal) (st0 : ExecSt) :
    Bool × ExecSt :=
  let r1 :=
    if !(st0.fs.contains base) then prepare st0 base
    else (!(verify_base_size (fun _ => PyVal.none) base size (PyVal.int 0)), st0)
  if !r1.1 then (false, r1.2)
  else
    let info : Option (Nat × Path) :=
      if r1.2.fs.contains path then
        match backing_of path with
        | some bp => qcow2_legacy_info base (pyBasename bp)
        | Option.none => Option.none
      else Option.none
    let r2 :=
      match info with
      | some li =>
        if li.1 ≠ 0 then
          if !(r1.2.fs.contains li.2) then
            qcow2_legacy_protected env base li.2 (li.1 : Int) r1.2
          else (true, r1.2)
        else (true, r1.2)
      | Option.none => (true, r1.2)
    if !r2.1 then (false, r2.2)
    else if !(r2.2.fs.contains path) then
      qcow2_overlay_protected env base path size r2.2
    else (true, r2.2)

/-- The ephemeral-mode protected region of Lvm.create_image (lines 479-480):
    `remove_volume_on_error(self.path)` around the direct fetch onto the volume. -/
def lvm_eph_protected (prepare : Prepare) (path : Path) (st : ExecSt) :
    Bool × ExecSt :=
  let r := prepare st path
  if !r.1 then (false, removeV r.2 path)
  else (true, r.2)

/-- The templated-mode protected region of Lvm.create_image (lines 461-471 and
    483-484): `remove_volume_on_error(self.path)` around `create_lvm_image(base,
    size)`, which is synchronized on `base` and computes the base size via the
    external `disk.get_disk_size` (modelled by `dgds`), verifies the requested size
    against it (this call passes an explicit base_size, so it can raise
    SizeViolation), allocates the volume at max(requested, base) size, converts the
    base into the raw device, and grows the filesystem when the size was raised. -/
def lvm_tmpl_protected (env : Ev → Bool) (dgds : Path → Int) (base path : Path)
    (size : PyVal) (st : ExecSt) : Bool × ExecSt :=
  let st1 : ExecSt := { st with tr := st.tr ++ [Ev.lockAcq base] }
  let base_size := dgds base
  if verify_base_size (fun _ => PyVal.none) base size (PyVal.int base_size) then
    (false, removeV { st1 with tr := st1.tr ++ [Ev.lockRel base] } path)
  else
    let resize := pyGt size (PyVal.int base_size)
    let size2 := if resize then size else PyVal.int base_size
    let r2 := runEv env st1 (Ev.createLvm path size2)
    if !r2.1 then
      (false, removeV { r2.2 with tr := r2.2.tr ++ [Ev.lockRel base] } path)
    else
      let r3 := runEv env r2.2 (Ev.convertImage base path)
      if !r3.1 then
        (false, removeV { r3.2 with tr := r3.2.tr ++ [Ev.lockRel base] } path)
      else if resize then
        let r4 := runEv env r3.2 (Ev.resize2fs path)
        if !r4.1 then
          (false, removeV { r4.2 with tr := r4.2.tr ++ [Ev.lockRel base] } path)
        else (true, { r4.2 with tr := r4.2.tr ++ [Ev.lockRel base] })
      else (true, { r3.2 with tr := r3.2.tr ++ [Ev.lockRel base] })

/-- Embedding of Lvm.create_image (lines 460-484).  `eph` models
    `'ephemeral_size' in kwargs`.  Ephemeral mode (marker present and size truthy):
    allocate the volume — outside any rollback protection — then fetch directly
    onto the device inside `remove_volume_on_error`.  Templated mode: fetch the
    base, then run the locked convert sequence inside `remove_volume_on_error`. -/
def lvm_create_image (env : Ev → Bool) (dgds : Path → Int) (path : Path)
    (size : PyVal) (eph : Bool) (prepare : Prepare) (base : Path) (st0 : ExecSt) :
    Bool × ExecSt :=
  if eph && pyTruthy size then
    let r1 := runEv env st0 (Ev.createLvm path size)
    if !r1.1 then (false, r1.2)
    else lvm_eph_protected prepare path r1.2
  else
    let r1 := prepare st0 base
    if !r1.1 then (false, r1.2)
    else lvm_tmpl_protected env dgds base path size r1.2

/-! Helper lemmas shared by the claim theorems. -/

theorem verify_with_none_gds (gds : Path → PyVal) (base : Path) (size : PyVal)
    (h : gds base = PyVal.none) :
    verify_base_size gds base size (PyVal.int 0) = false := by
  cases size with
  | none => simp [verify_base_size]
  | int n =>
    by_cases hn : n = 0 <;> simp [verify_base_size, pyTruthy, pyLt, h, hn]

theorem not_mem_removeFrom_self (fs : List Path) (p : Path) :
    p ∉ removeFrom fs p := by
  intro hm
  rw [removeFrom, List.mem_filter] at hm
  simp at hm

theorem removeFrom_contains_self (fs : List Path) (p : Path) :
    (removeFrom fs p).contains p = false := by
  induction fs with
  | nil => rfl
  | cons q rest ih =>
    by_cases hq : q = p
    · simp only [removeFrom, List.filter_cons, hq, beq_self_eq_true, Bool.not_true,
        Bool.false_eq_true, if_false]
      exact ih
    · have hb : (q == p) = false := beq_eq_false_iff_ne.mpr hq
      have hb' : (p == q) = false := beq_eq_false_iff_ne.mpr (Ne.symm hq)
      simp only [removeFrom, List.filter_cons, hb, Bool.not_false, if_true,
        List.contains_cons, hb', Bool.false_or]
      exact ih

theorem contains_cons_of_contains (fs : List Path) (p q : Path)
    (h : fs.contains p = true) : (q :: fs).contains p = true := by
  simp only [List.contains_cons, h, Bool.or_true]

/-- C3: when the target path and the base both already exist, cache() skips
    create_image entirely — for every backend's create_image — so a second call
    with identical filename and size performs no creation; and in the
    logical-volume ephemeral case, where create_image does run (the base is never
    created by the ephemeral flow), the fetch callback is re-invoked inside the
    filename lock even though the target volume already exists, on every call. -/
theorem C3_cache_skip_except_lvm_ephemeral :
    (∀ (env : Ev → Bool) (confLvm eph : Bool)
        (ci : Prepare → Path → ExecSt → Bool × ExecSt)
        (path baseDir filename : Path) (st0 : ExecSt),
        st0.fs.contains path = true →
        st0.fs.contains (baseDir ++ '/' :: filename) = true →
        cache env confLvm eph ci path baseDir filename st0 = (true, st0)) ∧
    (∀ (env : Ev → Bool) (dgds : Path → Int) (path baseDir filename : Path)
        (size : PyVal) (st0 : ExecSt),
        pyTruthy size = true →
        st0.fs.contains path = true →
        st0.fs.contains (baseDir ++ '/' :: filename) = false →
        env (Ev.createLvm path size) = true →
        env (Ev.fetch path) = true →
        cache env true true (lvm_create_image env dgds path size true)
            path baseDir filename st0 =
          (true, { fs := st0.fs,
                   tr := st0.tr ++ [Ev.createLvm path size, Ev.lockAcq filename,
                                    Ev.fetch path, Ev.lockRel filename] })) := by
  constructor
  · intro env confLvm eph ci path baseDir filename st0 hp hb
    have hp' : path ∈ st0.fs := by simpa using hp
    have hb' : baseDir ++ '/' :: filename ∈ st0.fs := by simpa using hb
    simp [cache, hp', hb']
  · intro env dgds path baseDir filename size st0 hsz hp hb henv1 henv2
    have hp' : path ∈ st0.fs := by simpa using hp
    have hb' : baseDir ++ '/' :: filename ∉ st0.fs := by simpa using hb
    simp [cache, lvm_create_image, hsz, runEv, evTarget, fsInsert,
      lvm_eph_protected, call_if_not_exists_run, henv1, henv2, hp', hb']

/-- Witness for C3: a concrete lvm-ephemeral state where the target exists but the
    base does not re-invokes the fetcher; a concrete state where both exist skips
    creation entirely. -/
theorem C3_cache_skip_except_lvm_ephemeral_witness :
    cache (fun _ => true) true true
        (lvm_create_image (fun _ => true) (fun _ => 0) ['p'] (PyVal.int 1) true)
        ['p'] ['b'] ['f'] ⟨[['p']], []⟩ =
      (true, ⟨[['p']], [Ev.createLvm ['p'] (PyVal.int 1), Ev.lockAcq ['f'],
                        Ev.fetch ['p'], Ev.lockRel ['f']]⟩) ∧
    cache (fun _ => true) true true
        (lvm_create_image (fun _ => true) (fun _ => 0) ['p'] (PyVal.int 1) true)
        ['p'] ['b'] ['f'] ⟨[['p'], ['b', '/', 'f']], []⟩ =
      (true, ⟨[['p'], ['b', '/', 'f']], []⟩) := by
  constructor
  · exact C3_cache_skip_except_lvm_ephemeral.2 (fun _ => true) (fun _ => 0)
      ['p'] ['b'] ['f'] (PyVal.int 1) ⟨[['p']], []⟩
      (by decide) (by decide) (by decide) rfl rfl
  · exact C3_cache_skip_except_lvm_ephemeral.1 (fun _ => true) true true
      (lvm_create_image (fun _ => true) (fun _ => 0) ['p'] (PyVal.int 1) true)
      ['p'] ['b'] ['f'] ⟨[['p'], ['b', '/', 'f']], []⟩ (by decide) (by decide)

/-- Recognize a copy operation in a trace. -/
def isCopyEv : Ev → Bool
  | .copyImage _ _ => true
  | _ => false

/-- Recognize a lock acquisition in a trace. -/
def isLockAcqEv : Ev → Bool
  | .lockAcq _ => true
  | _ => false

/-- Recognize a fetch operation in a trace. -/
def isFetchEv : Ev → Bool
  | .fetch _ => true
  | _ => false

theorem afterLast_of_not_mem (sep : Char) (l : List Char) (h : sep ∉ l) :
    afterLast sep l = Option.none := by
  induction l with
  | nil => rfl
  | cons c rest ih =>
    have hc : ¬(c = sep) := fun hc => h (hc ▸ List.mem_cons_self c rest)
    have hr : sep ∉ rest := fun hm => h (List.mem_cons_of_mem c hm)
    simp [afterLast, ih hr, hc]

theorem afterLast_append_sep (sep : Char) (a b : List Char) (h : sep ∉ b) :
    afterLast sep (a ++ sep :: b) = some b := by
  induction a with
  | nil => simp [afterLast, afterLast_of_not_mem sep b h]
  | cons c a' ih => simp [afterLast, ih]

theorem append_cons_ne_right (a : List Char) (c : Char) (b : List Char) :
    a ++ c :: b ≠ b := by
  intro h
  have hlen := congrArg List.length h
  simp only [List.length_append, List.length_cons] at hlen
  omega

theorem append_cons_ne_left (a : List Char) (c : Char) (b : List Char) :
    a ++ c :: b ≠ a := by
  intro h
  have hlen := congrArg List.length h
  simp only [List.length_append, List.length_cons] at hlen
  omega

theorem not_underscore_mem_of_digits (l : List Char)
    (h : l.all Char.isDigit = true) : '_' ∉ l := by
  intro hm
  have hd := List.all_eq_true.mp h _ hm
  exact absurd hd (by decide)

theorem qcow2_legacy_info_spec (base stem digits : List Char)
    (hne : digits ≠ []) (hdig : digits.all Char.isDigit = true) :
    qcow2_legacy_info base (stem ++ '_' :: digits) =
      some (parseDigits digits * (1024 * 1024 * 1024),
            base ++ '_' :: natToChars (parseDigits digits)) := by
  have h1 : afterLast '_' (stem ++ '_' :: digits) = some digits :=
    afterLast_append_sep '_' stem digits (not_underscore_mem_of_digits digits hdig)
  have h2 : stem ++ '_' :: digits ≠ digits := append_cons_ne_right stem '_' digits
  have hie : digits.isEmpty = false := by
    cases digits with
    | nil => exact absurd rfl hne
    | cons _ _ => rfl
  have h3 : pyIsDigits digits = true := by simp [pyIsDigits, hie, hdig]
  simp [qcow2_legacy_info, h1, h2, h3]

/-- C7 counterexample: with target "d" existing and its backing file named "b_0" —
    a name that ends in _<digits> — and legacy base "b_0" absent, Qcow2.create_image
    performs no copy at all (the parsed size 0 is falsy), although the claim
    requires the legacy base to be materialized; and for backing file "b_5" the
    copy and extend that do run appear in a trace containing no lock acquisition,
    although the claim requires them to run under an exclusive lock. -/
theorem C7_counterexample :
    ((qcow2_create_image (fun _ => true) (fun _ => some ['b', '_', '0'])
        (fun st _ => (true, st)) ['d'] ['b'] PyVal.none
        ⟨[['d'], ['b']], []⟩).2.tr.all (fun e => !(isCopyEv e)) = true) ∧
    ((qcow2_create_image (fun _ => true) (fun _ => some ['b', '_', '5'])
        (fun st _ => (true, st)) ['d'] ['b'] PyVal.none
        ⟨[['d'], ['b']], []⟩).2.tr =
      [Ev.copyImage ['b'] ['b', '_', '5'],
       Ev.extendImg ['b', '_', '5'] (5 * (1024 * 1024 * 1024))]) ∧
    ((qcow2_create_image (fun _ => true) (fun _ => some ['b', '_', '5'])
        (fun st _ => (true, st)) ['d'] ['b'] PyVal.none
        ⟨[['d'], ['b']], []⟩).2.tr.all (fun e => !(isLockAcqEv e)) = true) := by
  refine ⟨by decide, by decide, by decide⟩

/-- C7 (amended): for an existing target whose backing filename ends in _<digits>
    with nonzero parsed value, the legacy size is the parsed digits times 1024³
    bytes, and the legacy-base filename is the primary base name with '_' and the
    parsed value rendered in decimal appended — hence distinct from the primary
    base.  When that legacy base does not yet exist it is materialized exactly once
    — copy from base, then extend to the legacy size, with no lock held around
    those two operations — and if the copy fails, the partial legacy base is
    removed before the error propagates. -/
theorem C7_qcow2_legacy_backing (env : Ev → Bool) (backing_of : Path → Option Path)
    (prepare : Prepare) (path base bp stem digits : Path) (size : PyVal)
    (st0 : ExecSt)
    (hne : digits ≠ []) (hdig : digits.all Char.isDigit = true)
    (hpos : 0 < parseDigits digits)
    (hbo : backing_of path = some bp)
    (hbf : pyBasename bp = stem ++ '_' :: digits)
    (hcb : st0.fs.contains base = true)
    (hcp : st0.fs.contains path = true)
    (hcl : st0.fs.contains (base ++ '_' :: natToChars (parseDigits digits)) = false) :
    qcow2_legacy_info base (stem ++ '_' :: digits) =
      some (parseDigits digits * (1024 * 1024 * 1024),
            base ++ '_' :: natToChars (parseDigits digits)) ∧
    base ++ '_' :: natToChars (parseDigits digits) ≠ base ∧
    (env (Ev.copyImage base (base ++ '_' :: natToChars (parseDigits digits))) = true →
     env (Ev.extendImg (base ++ '_' :: natToChars (parseDigits digits))
           ((parseDigits digits * (1024 * 1024 * 1024) : Nat) : Int)) = true →
     qcow2_create_image env backing_of prepare path base size st0 =
       (true,
        { fs := (base ++ '_' :: natToChars (parseDigits digits)) :: st0.fs,
          tr := st0.tr ++
            [Ev.copyImage base (base ++ '_' :: natToChars (parseDigits digits)),
             Ev.extendImg (base ++ '_' :: natToChars (parseDigits digits))
               ((parseDigits digits * (1024 * 1024 * 1024) : Nat) : Int)] })) ∧
    (env (Ev.copyImage base (base ++ '_' :: natToChars (parseDigits digits))) = false →
     qcow2_create_image env backing_of prepare path base size st0 =
       (false,
        { fs := removeFrom ((base ++ '_' :: natToChars (parseDigits digits)) :: st0.fs)
                  (base ++ '_' :: natToChars (parseDigits digits)),
          tr := st0.tr ++
            [Ev.copyImage base (base ++ '_' :: natToChars (parseDigits digits)),
             Ev.removePath (base ++ '_' :: natToChars (parseDigits digits))] }) ∧
     (qcow2_create_image env backing_of prepare path base size st0).2.fs.contains
        (base ++ '_' :: natToChars (parseDigits digits)) = false) := by
  have hspec := qcow2_legacy_info_spec base stem digits hne hdig
  have hlegne : base ++ '_' :: natToChars (parseDigits digits) ≠ base :=
    append_cons_ne_left base '_' (natToChars (parseDigits digits))
  have hv : verify_base_size (fun _ => PyVal.none) base size (PyVal.int 0) = false :=
    verify_with_none_gds _ base size rfl
  have hcb' : base ∈ st0.fs := by simpa using hcb
  have hcp' : path ∈ st0.fs := by simpa using hcp
  have hcl' : base ++ '_' :: natToChars (parseDigits digits) ∉ st0.fs := by
    simpa using hcl
  have hsz : parseDigits digits * (1024 * 1024 * 1024) ≠ 0 :=
    Nat.mul_ne_zero hpos.ne' (by decide)
  refine ⟨hspec, hlegne, ?_, ?_⟩
  · intro henv1 henv2
    norm_num at henv2
    simp [qcow2_create_image, hcb', hcp', hv, hbo, hbf, hspec, hsz,
      qcow2_legacy_protected, runEv, evTarget, fsInsert, hcl', henv1, henv2]
  · intro henv1
    constructor
    · simp [qcow2_create_image, hcb', hcp', hv, hbo, hbf, hspec, hsz,
        qcow2_legacy_protected, runEv, evTarget, fsInsert, hcl', henv1, removeP]
    · simp [qcow2_create_image, hcb', hcp', hv, hbo, hbf, hspec, hsz,
        qcow2_legacy_protected, runEv, evTarget, fsInsert, hcl', henv1, removeP,
        not_mem_removeFrom_self]

/-- Witness for C7 at backing file "b_7": hypotheses hold and both the successful
    materialization and the rollback on a failing copy evaluate as stated. -/
theorem C7_qcow2_legacy_backing_witness :
    (['7'] : Path) ≠ [] ∧ (['7'] : Path).all Char.isDigit = true ∧
    0 < parseDigits ['7'] ∧
    qcow2_create_image (fun _ => true) (fun _ => some ['b', '_', '7'])
        (fun st _ => (true, st)) ['d'] ['b'] PyVal.none ⟨[['d'], ['b']], []⟩ =
      (true,
       { fs := (['b'] ++ '_' :: natToChars (parseDigits ['7'])) :: [['d'], ['b']],
         tr := [] ++
           [Ev.copyImage ['b'] (['b'] ++ '_' :: natToChars (parseDigits ['7'])),
            Ev.extendImg (['b'] ++ '_' :: natToChars (parseDigits ['7']))
              ((parseDigits ['7'] * (1024 * 1024 * 1024) : Nat) : Int)] }) ∧
    (qcow2_create_image (fun e => !(isCopyEv e)) (fun _ => some ['b', '_', '7'])
        (fun st _ => (true, st)) ['d'] ['b'] PyVal.none
        ⟨[['d'], ['b']], []⟩).2.fs.contains
      (['b'] ++ '_' :: natToChars (parseDigits ['7'])) = false := by
  refine ⟨by decide, by decide, by decide, ?_, ?_⟩
  · exact (C7_qcow2_legacy_backing (fun _ => true) (fun _ => some ['b', '_', '7'])
      (fun st _ => (true, st)) ['d'] ['b'] ['b', '_', '7'] ['b'] ['7'] PyVal.none
      ⟨[['d'], ['b']], []⟩ (by decide) (by decide) (by decide) rfl (by decide)
      (by decide) (by decide) (by decide)).2.2.1 rfl rfl
  · exact ((C7_qcow2_legacy_backing (fun e => !(isCopyEv e))
      (fun _ => some ['b', '_', '7']) (fun st _ => (true, st)) ['d'] ['b']
      ['b', '_', '7'] ['b'] ['7'] PyVal.none ⟨[['d'], ['b']], []⟩ (by decide)
      (by decide) (by decide) rfl (by decide) (by decide) (by decide)
      (by decide)).2.2.2 rfl).2

/-- C8 counterexample: in Raw.create_image's generate-in-place branch (no image id
    given) the fetch callback writes the final path with no rollback protection, so
    a fetch failure propagates while the partial target remains visible, contrary
    to the claim that a creation failure always removes the partial artifact. -/
theorem C8_counterexample :
    (raw_create_image (fun e => !(isFetchEv e)) true
        (call_if_not_exists_run (fun e => !(isFetchEv e)) false false ['f'])
        ['p'] ['b'] (PyVal.int 1) ⟨[], []⟩).1 = false ∧
    (raw_create_image (fun e => !(isFetchEv e)) true
        (call_if_not_exists_run (fun e => !(isFetchEv e)) false false ['f'])
        ['p'] ['b'] (PyVal.int 1) ⟨[], []⟩).2.fs.contains ['p'] = true := by
  refine ⟨by decide, by decide⟩

/-- C8 (amended): every rollback-protected materialization step removes its partial
    artifact before the exception propagates: the flat backend's base-to-target
    copy deletes the partial target, the copy-on-write backend's legacy-base and
    overlay creations delete their partial files, and the logical-volume backend's
    ephemeral fetch and templated convert sequences destroy the partial volume.
    The flat backend's generate-in-place fetch onto the final path (and the
    ephemeral volume allocation preceding the protected region) carry no such
    protection. -/
theorem C8_protected_rollback :
    (∀ (env : Ev → Bool) (base path : Path) (size : PyVal) (st : ExecSt),
        (raw_copy_protected env base path size st).1 = false →
        (raw_copy_protected env base path size st).2.fs.contains path = false) ∧
    (∀ (env : Ev → Bool) (base legacy : Path) (lsize : Int) (st : ExecSt),
        (qcow2_legacy_protected env base legacy lsize st).1 = false →
        (qcow2_legacy_protected env base legacy lsize st).2.fs.contains legacy =
          false) ∧
    (∀ (env : Ev → Bool) (base path : Path) (size : PyVal) (st : ExecSt),
        (qcow2_overlay_protected env base path size st).1 = false →
        (qcow2_overlay_protected env base path size st).2.fs.contains path =
          false) ∧
    (∀ (prepare : Prepare) (path : Path) (st : ExecSt),
        (lvm_eph_protected prepare path st).1 = false →
        (lvm_eph_protected prepare path st).2.fs.contains path = false) ∧
    (∀ (env : Ev → Bool) (dgds : Path → Int) (base path : Path) (size : PyVal)
        (st : ExecSt),
        (lvm_tmpl_protected env dgds base path size st).1 = false →
        (lvm_tmpl_protected env dgds base path size st).2.fs.contains path =
          false) := by
  refine ⟨?_, ?_, ?_, ?_, ?_⟩
  · intro env base path size st h
    by_cases h1 : env (Ev.copyImage base path) <;>
      by_cases h2 : pyTruthy size <;>
        by_cases h3 : env (Ev.extendImg path (pyIntVal size)) <;>
          simp_all [raw_copy_protected, runEv, evTarget, removeP,
            not_mem_removeFrom_self]
  · intro env base legacy lsize st h
    by_cases h1 : env (Ev.copyImage base legacy) <;>
      by_cases h2 : env (Ev.extendImg legacy lsize) <;>
        simp_all [qcow2_legacy_protected, runEv, evTarget, removeP,
          not_mem_removeFrom_self]
  · intro env base path size st h
    by_cases h1 : env (Ev.createCow base path) <;>
      by_cases h2 : pyTruthy size <;>
        by_cases h3 : env (Ev.extendImg path (pyIntVal size)) <;>
          simp_all [qcow2_overlay_protected, runEv, evTarget, removeP,
            not_mem_removeFrom_self]
  · intro prepare path st h
    by_cases h1 : (prepare st path).1 <;>
      simp_all [lvm_eph_protected, removeV, not_mem_removeFrom_self]
  · intro env dgds base path size st h
    by_cases h0 : verify_base_size (fun _ => PyVal.none) base size
        (PyVal.int (dgds base)) <;>
      by_cases h1 : env (Ev.createLvm path
          (if pyGt size (PyVal.int (dgds base)) then size
           else PyVal.int (dgds base))) <;>
        by_cases h2 : env (Ev.convertImage base path) <;>
          by_cases h3 : pyGt size (PyVal.int (dgds base)) <;>
            by_cases h4 : env (Ev.resize2fs path) <;>
              simp_all [lvm_tmpl_protected, runEv, evTarget, removeV,
                not_mem_removeFrom_self]

/-- Witness for C8: each protected step, run with every external operation failing
    on a concrete state that already contains the artifact, reports failure with
    the artifact removed. -/
theorem C8_protected_rollback_witness :
    (raw_copy_protected (fun _ => false) ['b'] ['p'] (PyVal.int 1)
        ⟨[['p'], ['b']], []⟩).2.fs.contains ['p'] = false ∧
    (qcow2_legacy_protected (fun _ => false) ['b'] ['l'] 7
        ⟨[['b']], []⟩).2.fs.contains ['l'] = false ∧
    (qcow2_overlay_protected (fun _ => false) ['b'] ['p'] (PyVal.int 1)
        ⟨[['b']], []⟩).2.fs.contains ['p'] = false ∧
    (lvm_eph_protected (fun st _ => (false, st)) ['p']
        ⟨[['p']], []⟩).2.fs.contains ['p'] = false ∧
    (lvm_tmpl_protected (fun _ => false) (fun _ => 1) ['b'] ['p'] (PyVal.int 2)
        ⟨[['b']], []⟩).2.fs.contains ['p'] = false := by
  refine ⟨?_, ?_, ?_, ?_, ?_⟩
  · exact C8_protected_rollback.1 (fun _ => false) ['b'] ['p'] (PyVal.int 1)
      ⟨[['p'], ['b']], []⟩ (by decide)
  · exact C8_protected_rollback.2.1 (fun _ => false) ['b'] ['l'] 7
      ⟨[['b']], []⟩ (by decide)
  · exact C8_protected_rollback.2.2.1 (fun _ => false) ['b'] ['p'] (PyVal.int 1)
      ⟨[['b']], []⟩ (by decide)
  · exact C8_protected_rollback.2.2.2.1 (fun st _ => (false, st)) ['p']
      ⟨[['p']], []⟩ (by decide)
  · exact C8_protected_rollback.2.2.2.2 (fun _ => false) (fun _ => 1) ['b'] ['p']
      (PyVal.int 2) ⟨[['b']], []⟩ (by decide)

/-! The clustered (rbd) backend: location parsing, cloneability, direct_fetch and
direct_snapshot (lines 713-824).  The cluster itself is external: the readability
of a snapshot (a read-only RBDVolumeProxy open succeeding) is a parameter
`canOpen`, and this client's own cluster id (`_get_fsid`) a parameter `fsid`. -/

/-- Hexadecimal digit test used by percent-decoding. -/
def isHexDig (c : Char) : Bool :=
  ('0' ≤ c && c ≤ '9') || ('a' ≤ c && c ≤ 'f') || ('A' ≤ c && c ≤ 'F')

/-- Value of a hexadecimal digit. -/
def hexVal (c : Char) : Nat :=
  if '0' ≤ c && c ≤ '9' then c.toNat - '0'.toNat
  else if 'a' ≤ c && c ≤ 'f' then c.toNat - 'a'.toNat + 10
  else c.toNat - 'A'.toNat + 10

/-- Embedding of Python 2 urllib.unquote: replace every %xx escape with two valid
    hexadecimal digits by the denoted byte; leave invalid escapes as they are. -/
def unquote : List Char → List Char
  | [] => []
  | '%' :: a :: b :: rest2 =>
    if isHexDig a && isHexDig b then
      Char.ofNat (16 * hexVal a + hexVal b) :: unquote rest2
    else '%' :: unquote (a :: b :: rest2)
  | c :: rest => c :: unquote rest

/-- Errors of the rbd flows, by the reason strings raised in the source. -/
inductive RbdErr where
  | notStoredInRbd
  | blankComponents
  | notAnRbdSnapshot
  | notRawFormat
  | layeringUnsupported
  | noAccessibleLocations
  | onlyRawFormat
  | librbdTooOld
deriving DecidableEq, Repr

/-- The characters of the literal prefix 'rbd://'. -/
def rbdPrefixChars : List Char := ['r', 'b', 'd', ':', '/', '/']

/-- Embedding of Rbd._parse_location (lines 713-725): require the rbd:// prefix,
    split the rest on '/', percent-decode each piece, reject blank components,
    then require exactly 4 pieces. -/
def parse_location (location : List Char) : Except RbdErr (List (List Char)) :=
  if rbdPrefixChars.isPrefixOf location then
    let pieces := (pySplit '/' (location.drop 6)).map unquote
    if pieces.any (fun p => p.isEmpty) then Except.error RbdErr.blankComponents
    else if pieces.length ≠ 4 then Except.error RbdErr.notAnRbdSnapshot
    else Except.ok pieces
  else Except.error RbdErr.notStoredInRbd

/-- Embedding of Rbd._is_cloneable (lines 731-753): parse the location (a parse
    failure means not cloneable), require the cluster id to equal this client's
    own fsid, then check that a read-only open of pool/image@snapshot succeeds. -/
def is_cloneable (fsid : List Char) (canOpen : List Char → List Char → List Char → Bool)
    (image_location : List Char) : Bool :=
  match parse_location image_location with
  | Except.error _ => false
  | Except.ok pieces =>
    match pieces with
    | [f, pool, image, snapshot] =>
      if f ≠ fsid then false
      else canOpen pool image snapshot
    | _ => false

/-- Result of direct_fetch: nothing to do, or a clone of pool/image@snapshot into
    this volume's name. -/
inductive FetchResult where
  | noop
  | cloned (pool image snapshot cloneName : List Char)
deriving DecidableEq, Repr

/-- The candidate-location loop of Rbd.direct_fetch (lines 775-779): clone the
    first cloneable location and stop; with no cloneable location, fail with the
    recoverable no-accessible-location error.  The re-parse in the loop body cannot
    fail once is_cloneable holds; its error arms mirror the exception the Python
    destructuring would raise. -/
def direct_fetch_loop (fsid : List Char)
    (canOpen : List Char → List Char → List Char → Bool) (rbd_name : List Char) :
    List (List Char) → Except RbdErr FetchResult
  | [] => Except.error RbdErr.noAccessibleLocations
  | url :: rest =>
    if is_cloneable fsid canOpen url then
      match parse_location url with
      | Except.ok [_f, pool, image, snapshot] =>
        Except.ok (FetchResult.cloned pool image snapshot rbd_name)
      | Except.ok _ => Except.error RbdErr.notAnRbdSnapshot
      | Except.error e => Except.error e
    else direct_fetch_loop fsid canOpen rbd_name rest

/-- Embedding of Rbd.direct_fetch (lines 765-782).  `imageExists` is
    `self.check_image_exists()`; `disk_format` is `image_meta.get('disk_format')`
    (None when absent); the location list carries the url of each candidate
    location dict. -/
def direct_fetch (imageExists : Bool) (disk_format : Option (List Char))
    (supportsLayering : Bool) (fsid : List Char)
    (canOpen : List Char → List Char → List Char → Bool) (rbd_name : List Char)
    (locations : List (List Char)) : Except RbdErr FetchResult :=
  if imageExists then Except.ok FetchResult.noop
  else if ¬(disk_format = some "raw".toList ∨ disk_format = some "iso".toList) then
    Except.error RbdErr.notRawFormat
  else if ¬supportsLayering then Except.error RbdErr.layeringUnsupported
  else direct_fetch_loop fsid canOpen rbd_name locations

/-- Embedding of Rbd.direct_snapshot (lines 805-824): reject unless the requested
    format is raw and layering is supported; otherwise snapshot the live volume
    (name suffixed with the deletion marker), clone it into
    `rbd_name + '_clone_' + snapshot_name`, snapshot the clone as 'snap', and
    return 'rbd://{fsid}/{pool}/{clone}/snap'.  The cluster-side snapshot and
    clone creations live outside this module (they persist past the call and are
    the registry collaborator's to clean up); the embedding captures the rejection
    logic and the returned location string. -/
def direct_snapshot (supportsLayering : Bool) (fsid pool rbd_name snapshot_name
    image_format : List Char) : Except RbdErr (List Char) :=
  if image_format ≠ "raw".toList then Except.error RbdErr.onlyRawFormat
  else if ¬supportsLayering then Except.error RbdErr.librbdTooOld
  else
    let clone_name := rbd_name ++ "_clone_".toList ++ snapshot_name
    Except.ok (rbdPrefixChars ++
      (fsid ++ '/' :: (pool ++ '/' :: (clone_name ++ '/' :: "snap".toList))))

instance {ε α : Type} [DecidableEq ε] [DecidableEq α] :
    DecidableEq (Except ε α) := fun x y =>
  match x, y with
  | .ok a, .ok b =>
    if h : a = b then isTrue (by rw [h]) else isFalse (by simp [h])
  | .error a, .error b =>
    if h : a = b then isTrue (by rw [h]) else isFalse (by simp [h])
  | .ok _, .error _ => isFalse (by simp)
  | .error _, .ok _ => isFalse (by simp)

theorem direct_fetch_loop_first (fsid : List Char)
    (canOpen : List Char → List Char → List Char → Bool) (rbd_name : List Char)
    (pre rest : List (List Char)) (url f pool image snapshot : List Char)
    (hpre : ∀ u ∈ pre, is_cloneable fsid canOpen u = false)
    (hurl : is_cloneable fsid canOpen url = true)
    (hparse : parse_location url = Except.ok [f, pool, image, snapshot]) :
    direct_fetch_loop fsid canOpen rbd_name (pre ++ url :: rest) =
      Except.ok (FetchResult.cloned pool image snapshot rbd_name) := by
  induction pre with
  | nil => simp [direct_fetch_loop, hurl, hparse]
  | cons u pre' ih =>
    have hu : is_cloneable fsid canOpen u = false :=
      hpre u (List.mem_cons_self u pre')
    have hpre' : ∀ v ∈ pre', is_cloneable fsid canOpen v = false :=
      fun v hv => hpre v (List.mem_cons_of_mem u hv)
    simpa [direct_fetch_loop, hu] using ih hpre'

theorem direct_fetch_loop_none (fsid : List Char)
    (canOpen : List Char → List Char → List Char → Bool) (rbd_name : List Char)
    (locs : List (List Char))
    (h : ∀ u ∈ locs, is_cloneable fsid canOpen u = false) :
    direct_fetch_loop fsid canOpen rbd_name locs =
      Except.error RbdErr.noAccessibleLocations := by
  induction locs with
  | nil => rfl
  | cons u ls ih =>
    have hu : is_cloneable fsid canOpen u = false := h u (List.mem_cons_self u ls)
    simpa [direct_fetch_loop, hu] using ih fun v hv => h v (List.mem_cons_of_mem u hv)

/-- C5: direct_fetch on the clustered backend is a no-op when the volume already
    exists; it fails with ImageUnacceptable when the declared disk format is
    neither raw nor iso, or when layering is unsupported; otherwise it clones
    exactly the first cloneable candidate location — cloneable meaning the location
    parses, its cluster id equals this client's own, and a read-only open of the
    snapshot succeeds — and when no candidate is cloneable it fails with the
    recoverable no-accessible-location error. -/
theorem C5_direct_fetch_clones_first (df : Option (List Char)) (lay : Bool)
    (fsid rbd_name : List Char) (canOpen : List Char → List Char → List Char → Bool)
    (locs : List (List Char)) :
    (direct_fetch true df lay fsid canOpen rbd_name locs =
      Except.ok FetchResult.noop) ∧
    (¬(df = some "raw".toList ∨ df = some "iso".toList) →
      direct_fetch false df lay fsid canOpen rbd_name locs =
        Except.error RbdErr.notRawFormat) ∧
    ((df = some "raw".toList ∨ df = some "iso".toList) →
      direct_fetch false df false fsid canOpen rbd_name locs =
        Except.error RbdErr.layeringUnsupported) ∧
    ((df = some "raw".toList ∨ df = some "iso".toList) →
      ∀ (pre rest : List (List Char)) (url f pool image snapshot : List Char),
        (∀ u ∈ pre, is_cloneable fsid canOpen u = false) →
        is_cloneable fsid canOpen url = true →
        parse_location url = Except.ok [f, pool, image, snapshot] →
        direct_fetch false df true fsid canOpen rbd_name (pre ++ url :: rest) =
          Except.ok (FetchResult.cloned pool image snapshot rbd_name)) ∧
    ((df = some "raw".toList ∨ df = some "iso".toList) →
      (∀ u ∈ locs, is_cloneable fsid canOpen u = false) →
      direct_fetch false df true fsid canOpen rbd_name locs =
        Except.error RbdErr.noAccessibleLocations) := by
  refine ⟨by simp [direct_fetch], ?_, ?_, ?_, ?_⟩
  · intro h
    push_neg at h
    have h1 : ¬(df = some ['r', 'a', 'w']) := by simpa using h.1
    have h2 : ¬(df = some ['i', 's', 'o']) := by simpa using h.2
    simp [direct_fetch, h1, h2]
  · intro h
    rcases h with h | h <;> simp [direct_fetch, h]
  · intro h pre rest url f pool image snapshot hpre hurl hparse
    have hd := direct_fetch_loop_first fsid canOpen rbd_name pre rest url f pool
      image snapshot hpre hurl hparse
    rcases h with h | h <;> simp [direct_fetch, h, hd]
  · intro h hnone
    have hd := direct_fetch_loop_none fsid canOpen rbd_name locs hnone
    rcases h with h | h <;> simp [direct_fetch, h, hd]

/-- Witness for C5: three concrete locations of which only the second is cloneable
    (the first is not an rbd URI, the third names a foreign cluster) clone exactly
    the second; with the only location unreadable, the no-accessible-location error
    results; with the volume existing, nothing happens. -/
theorem C5_direct_fetch_clones_first_witness :
    direct_fetch false (some "raw".toList) true ['f'] (fun _ _ _ => true) ['n']
        ["file://x".toList, "rbd://f/p/i/s".toList, "rbd://g/p/i/s".toList] =
      Except.ok (FetchResult.cloned ['p'] ['i'] ['s'] ['n']) ∧
    direct_fetch false (some "raw".toList) true ['f'] (fun _ _ _ => false) ['n']
        ["rbd://f/p/i/s".toList] = Except.error RbdErr.noAccessibleLocations ∧
    direct_fetch true (some "raw".toList) true ['f'] (fun _ _ _ => true) ['n'] [] =
      Except.ok FetchResult.noop := by
  refine ⟨?_, ?_, ?_⟩
  · have h := (C5_direct_fetch_clones_first (some "raw".toList) true ['f'] ['n']
      (fun _ _ _ => true)
      ["file://x".toList, "rbd://f/p/i/s".toList, "rbd://g/p/i/s".toList]).2.2.2.1
      (Or.inl rfl) ["file://x".toList] ["rbd://g/p/i/s".toList]
      "rbd://f/p/i/s".toList ['f'] ['p'] ['i'] ['s']
      (by decide) (by decide) (by decide)
    simpa using h
  · exact (C5_direct_fetch_clones_first (some "raw".toList) true ['f'] ['n']
      (fun _ _ _ => false) ["rbd://f/p/i/s".toList]).2.2.2.2 (Or.inl rfl)
      (by decide)
  · exact (C5_direct_fetch_clones_first (some "raw".toList) true ['f'] ['n']
      (fun _ _ _ => true) []).1

theorem pySplit_ne_nil (sep : Char) (l : List Char) : pySplit sep l ≠ [] := by
  induction l with
  | nil => simp [pySplit]
  | cons c rest ih =>
    simp only [pySplit]
    cases h : pySplit sep rest with
    | nil => simp
    | cons r rs => by_cases hc : c = sep <;> simp [hc]

theorem pySplit_no_sep (sep : Char) (l : List Char) (h : sep ∉ l) :
    pySplit sep l = [l] := by
  induction l with
  | nil => rfl
  | cons c rest ih =>
    have hc : ¬(c = sep) := fun e => h (e ▸ List.mem_cons_self c rest)
    have hr : sep ∉ rest := fun m => h (List.mem_cons_of_mem c m)
    simp [pySplit, ih hr, hc]

theorem pySplit_append_sep (sep : Char) (a b : List Char) (h : sep ∉ a) :
    pySplit sep (a ++ sep :: b) = a :: pySplit sep b := by
  induction a with
  | nil =>
    simp only [List.nil_append, pySplit]
    cases hb : pySplit sep b with
    | nil => exact absurd hb (pySplit_ne_nil sep b)
    | cons r rs => simp
  | cons c a' ih =>
    have hc : ¬(c = sep) := fun e => h (e ▸ List.mem_cons_self c a')
    have ha' : sep ∉ a' := fun m => h (List.mem_cons_of_mem c m)
    simp [pySplit, ih ha', hc]

theorem unquote_cons_ne_nil (c : Char) (rest : List Char) :
    unquote (c :: rest) ≠ [] := by
  rw [unquote.eq_def]
  split
  · simp_all
  · split <;> simp
  · simp

theorem unquote_ne_nil (l : List Char) (h : l ≠ []) : unquote l ≠ [] := by
  cases l with
  | nil => exact absurd rfl h
  | cons c rest => exact unquote_cons_ne_nil c rest

theorem isEmpty_false_of_ne_nil (l : List Char) (h : l ≠ []) :
    l.isEmpty = false := by
  cases l with
  | nil => exact absurd rfl h
  | cons _ _ => rfl

/-- C6: direct_snapshot rejects with UnsupportedOperation unless the requested
    image format is raw and layering is supported; on success — for cluster id,
    pool and names that are nonempty where required and free of '/' — it returns
    the location string rbd://fsid/pool/clone/snap, which _parse_location accepts
    as exactly 4 non-empty components. -/
theorem C6_direct_snapshot_location (lay : Bool)
    (fsid pool rbd_name snap_name fmt : List Char) :
    (fmt ≠ "raw".toList →
      direct_snapshot lay fsid pool rbd_name snap_name fmt =
        Except.error RbdErr.onlyRawFormat) ∧
    (fmt = "raw".toList → lay = false →
      direct_snapshot lay fsid pool rbd_name snap_name fmt =
        Except.error RbdErr.librbdTooOld) ∧
    (fmt = "raw".toList → lay = true → fsid ≠ [] → pool ≠ [] →
      '/' ∉ fsid → '/' ∉ pool → '/' ∉ rbd_name → '/' ∉ snap_name →
      ∃ loc pieces,
        direct_snapshot lay fsid pool rbd_name snap_name fmt = Except.ok loc ∧
        parse_location loc = Except.ok pieces ∧
        pieces.length = 4 ∧ ∀ p ∈ pieces, p ≠ []) := by
  refine ⟨?_, ?_, ?_⟩
  · intro h
    have h' : ¬(fmt = ['r', 'a', 'w']) := by simpa using h
    simp [direct_snapshot, h']
  · intro h hl
    subst h hl
    simp [direct_snapshot]
  · intro h hl hf hp hsf hsp hsr hss
    subst h hl
    set clone := rbd_name ++ "_clone_".toList ++ snap_name with hclone
    have hcne : clone ≠ [] := by
      simp [hclone, List.append_eq_nil]
    have hcs : '/' ∉ clone := by
      simp only [hclone, List.mem_append]
      rintro ((hm | hm) | hm)
      · exact hsr hm
      · exact absurd hm (by decide)
      · exact hss hm
    refine ⟨rbdPrefixChars ++
      (fsid ++ '/' :: (pool ++ '/' :: (clone ++ '/' :: "snap".toList))),
      [unquote fsid, unquote pool, unquote clone, unquote "snap".toList],
      ?_, ?_, rfl, ?_⟩
    · simp [direct_snapshot, hclone]
    · have hpre : rbdPrefixChars.isPrefixOf (rbdPrefixChars ++
          (fsid ++ '/' :: (pool ++ '/' :: (clone ++ '/' :: "snap".toList)))) =
          true := by
        rw [ List.isPrefixOf_iff_prefix]
        exact ⟨fsid ++ '/' :: (pool ++ '/' :: (clone ++ '/' :: "snap".toList)),
          rfl⟩
      have h6 : rbdPrefixChars.length = 6 := rfl
      have hdrop : (rbdPrefixChars ++
          (fsid ++ '/' :: (pool ++ '/' :: (clone ++ '/' :: "snap".toList)))).drop
            6 =
          fsid ++ '/' :: (pool ++ '/' :: (clone ++ '/' :: "snap".toList)) := by
        rw [← h6, List.drop_left]
      have hsplit : pySplit '/'
          (fsid ++ '/' :: (pool ++ '/' :: (clone ++ '/' :: "snap".toList))) =
          [fsid, pool, clone, "snap".toList] := by
        rw [pySplit_append_sep '/' fsid _ hsf,
          pySplit_append_sep '/' pool _ hsp,
          pySplit_append_sep '/' clone _ hcs,
          pySplit_no_sep '/' "snap".toList (by decide)]
      have hfe : (unquote fsid).isEmpty = false :=
        isEmpty_false_of_ne_nil _ (unquote_ne_nil fsid hf)
      have hpe : (unquote pool).isEmpty = false :=
        isEmpty_false_of_ne_nil _ (unquote_ne_nil pool hp)
      have hce : (unquote clone).isEmpty = false :=
        isEmpty_false_of_ne_nil _ (unquote_ne_nil clone hcne)
      have hse : (unquote "snap".toList).isEmpty = false := by decide
      rw [parse_location, if_pos hpre, hdrop, hsplit]
      simp [hfe, hpe, hce, hse]
      decide
    · intro p hm
      have hfne := unquote_ne_nil fsid hf
      have hpne := unquote_ne_nil pool hp
      have hcne' := unquote_ne_nil clone hcne
      have hsne : unquote "snap".toList ≠ [] := by decide
      simp only [List.mem_cons, List.not_mem_nil, or_false] at hm
      rcases hm with hm | hm | hm | hm
      · exact hm ▸ hfne
      · exact hm ▸ hpne
      · exact hm ▸ hcne'
      · exact hm ▸ hsne

/-- Witness for C6: each rejection at a concrete input, and a concrete successful
    call whose returned location parses into 4 non-empty components. -/
theorem C6_direct_snapshot_location_witness :
    direct_snapshot true ['f'] ['p'] ['n'] ['s'] "qcow2".toList =
      Except.error RbdErr.onlyRawFormat ∧
    direct_snapshot false ['f'] ['p'] ['n'] ['s'] "raw".toList =
      Except.error RbdErr.librbdTooOld ∧
    ∃ loc pieces,
      direct_snapshot true ['f'] ['p'] ['n'] ['s'] "raw".toList = Except.ok loc ∧
      parse_location loc = Except.ok pieces ∧ pieces.length = 4 ∧
      ∀ p ∈ pieces, p ≠ [] := by
  refine ⟨?_, ?_, ?_⟩
  · exact (C6_direct_snapshot_location true ['f'] ['p'] ['n'] ['s']
      "qcow2".toList).1 (by decide)
  · exact (C6_direct_snapshot_location false ['f'] ['p'] ['n'] ['s']
      "raw".toList).2.1 rfl rfl
  · exact (C6_direct_snapshot_location true ['f'] ['p'] ['n'] ['s']
      "raw".toList).2.2 rfl rfl (by decide) (by decide) (by decide) (by decide)
      (by decide) (by decide)

/-! Scoped cluster resources: Rbd._connect_to_rados / _disconnect_from_rados and
RBDVolumeProxy (lines 499-534 and 579-595).  The flags say which external steps
succeed: connecting the cluster client, opening the pool ioctx, opening the
volume, the body of the with-block, and closing the volume. -/

/-- Events on a cluster session and volume handle. -/
inductive REv where
  | connect
  | openIoctx
  | shutdown
  | ioctxClose
  | volOpen
  | volClose
deriving DecidableEq, Repr

/-- Embedding of Rbd._connect_to_rados (lines 579-590): construct the client,
    connect, open the pool ioctx; on an exception from either step, shut the
    client down (shutdown cannot raise) and re-raise.  Returns whether the
    connection was handed to the caller, plus the event trace. -/
def connect_to_rados (connectOk openOk : Bool) : Bool × List REv :=
  if ¬connectOk then (false, [REv.connect, REv.shutdown])
  else if ¬openOk then (false, [REv.connect, REv.openIoctx, REv.shutdown])
  else (true, [REv.connect, REv.openIoctx])

/-- Embedding of Rbd._disconnect_from_rados (lines 592-595): close the ioctx,
    then shut down the client; neither can raise. -/
def disconnect_from_rados : List REv := [REv.ioctxClose, REv.shutdown]

/-- Embedding of a full `with RBDVolumeProxy(...)` block (lines 499-534):
    __init__ connects, then opens the volume — disconnecting and re-raising if the
    open fails; __exit__ closes the volume and, in a finally, disconnects, so the
    session is torn down even when the body or the volume close raises. -/
def rbd_volume_proxy_run (connectOk openOk volOpenOk bodyOk volCloseOk : Bool) :
    Bool × List REv :=
  let c := connect_to_rados connectOk openOk
  if ¬c.1 then (false, c.2)
  else if ¬volOpenOk then (false, c.2 ++ [REv.volOpen] ++ disconnect_from_rados)
  else
    (bodyOk && volCloseOk,
     c.2 ++ [REv.volOpen, REv.volClose] ++ disconnect_from_rados)

/-- C9: scoped cluster resources release deterministically on every exit path.
    A session that fails partway through connecting shuts the partially-opened
    connection down before the error propagates (the failure trace ends in
    shutdown); and a volume handle guarantees that the volume and the underlying
    session close, volume first then ioctx then client, on every path on which the
    volume was opened — while a failed volume open still ends in the session
    teardown ioctx-close-then-shutdown. -/
theorem C9_scoped_cleanup (connectOk openOk volOpenOk bodyOk volCloseOk : Bool) :
    ((connect_to_rados connectOk openOk).1 = false →
      REv.connect ∈ (connect_to_rados connectOk openOk).2 ∧
      (connect_to_rados connectOk openOk).2.getLast? = some REv.shutdown) ∧
    ((rbd_volume_proxy_run connectOk openOk volOpenOk bodyOk volCloseOk).2.count
        REv.shutdown ≤ 1) ∧
    (connectOk = true → openOk = true → volOpenOk = true →
      (rbd_volume_proxy_run connectOk openOk volOpenOk bodyOk volCloseOk).2 =
        [REv.connect, REv.openIoctx, REv.volOpen, REv.volClose, REv.ioctxClose,
         REv.shutdown]) ∧
    (connectOk = true → openOk = true → volOpenOk = false →
      (rbd_volume_proxy_run connectOk openOk volOpenOk bodyOk volCloseOk).2 =
        [REv.connect, REv.openIoctx, REv.volOpen, REv.ioctxClose,
         REv.shutdown]) := by
  cases connectOk <;> cases openOk <;> cases volOpenOk <;> cases bodyOk <;>
    cases volCloseOk <;> exact ⟨by decide, by decide, by decide, by decide⟩

/-- Witness for C9: the concrete failure and success paths. -/
theorem C9_scoped_cleanup_witness :
    (REv.connect ∈ (connect_to_rados false true).2 ∧
      (connect_to_rados false true).2.getLast? = some REv.shutdown) ∧
    (rbd_volume_proxy_run true true true true true).2 =
      [REv.connect, REv.openIoctx, REv.volOpen, REv.volClose, REv.ioctxClose,
       REv.shutdown] ∧
    (rbd_volume_proxy_run true true false true true).2 =
      [REv.connect, REv.openIoctx, REv.volOpen, REv.ioctxClose,
       REv.shutdown] := by
  refine ⟨(C9_scoped_cleanup false true true true true).1 (by decide),
    (C9_scoped_cleanup true true true true true).2.2.1 rfl rfl rfl,
    (C9_scoped_cleanup true true false true true).2.2.2 rfl rfl rfl⟩

/-! The advisory-lock parameters of the two synchronized critical sections.
`utils.synchronized(name, external=..., lock_path=...)` takes the lock name, the
flag saying whether the lock is an inter-process (file-based) lock or an
in-process one, and the shared lock directory. -/

/-- Parameters of a `utils.synchronized` decoration.  `interprocess` models the
    `external=` keyword argument. -/
structure SyncSpec where
  lockName : Path
  interprocess : Bool
  lockDir : Path
deriving DecidableEq, Repr

/-- The lock guarding `write_to_disk_info_file` (lines 267-268):
    `utils.synchronized(self.disk_info_path, external=False,
    lock_path=self.lock_path)`. -/
def write_to_disk_info_file_lock (disk_info_path lock_path : Path) : SyncSpec :=
  { lockName := disk_info_path, interprocess := false, lockDir := lock_path }

/-- The lock guarding cache's fetch wrapper (line 169):
    `utils.synchronized(filename, external=True, lock_path=self.lock_path)`. -/
def cache_fetch_lock (filename lock_path : Path) : SyncSpec :=
  { lockName := filename, interprocess := true, lockDir := lock_path }

/-- C10 counterexample: the disk-info write lock is declared with external=False,
    so it is not external to the process, contrary to the claim. -/
theorem C10_counterexample :
    (write_to_disk_info_file_lock "/i/disk.info".toList "/i/locks".toList).interprocess =
      false := rfl

/-- C10 (amended): every write to the per-directory format record is serialized by
    a named advisory lock keyed by the metadata path and scoped to the shared lock
    directory, but the lock is declared in-process (external=False), so it
    serializes green threads within one service process rather than independent
    processes; the base-image fetch lock, by contrast, is external. -/
theorem C10_disk_info_lock_in_process (disk_info_path filename lock_path : Path) :
    write_to_disk_info_file_lock disk_info_path lock_path =
      { lockName := disk_info_path, interprocess := false,
        lockDir := lock_path } ∧
    cache_fetch_lock filename lock_path =
      { lockName := filename, interprocess := true, lockDir := lock_path } :=
  ⟨rfl, rfl⟩

end ImageBackend
